import Mathlib

/-!
Shallow embedding of the permission-resolution engine of the `model` crate
(`src/guild/mod.rs`: `Guild::member_permissions` and `Guild::permissions_in`,
with the overwrite data model from `src/channel/mod.rs`).

Capability bitmasks are `u64` values; we embed them as `Nat` and perform the
`u64` bitwise complement `!b` explicitly as `(2^64 - 1) ^^^ b`.  Hash maps are
embedded as association lists (`List (Nat × _)`) with a first-match lookup.
Logging calls (`error!` / `warn!`) are side effects with no influence on the
returned mask and are not modelled.
-/

namespace Model

/-- Modelled from the spec: the `Permissions` bitflags type (its defining
module is not part of the provided sources; the spec describes it as a
fixed-width integer with one bit per named flag).  Bit values follow the
upstream chat-platform API. -/
def Permissions.CREATE_INVITE : Nat := 0x00000001

/-- Modelled from the spec: the "kick members" flag. -/
def Permissions.KICK_MEMBERS : Nat := 0x00000002

/-- Modelled from the spec: the "ban members" flag. -/
def Permissions.BAN_MEMBERS : Nat := 0x00000004

/-- Modelled from the spec: the "administrator" flag, which implies all
others. -/
def Permissions.ADMINISTRATOR : Nat := 0x00000008

/-- Modelled from the spec: the "manage channels" flag. -/
def Permissions.MANAGE_CHANNELS : Nat := 0x00000010

/-- Modelled from the spec: the "manage guild" flag. -/
def Permissions.MANAGE_GUILD : Nat := 0x00000020

/-- Modelled from the spec: the "add reactions" flag. -/
def Permissions.ADD_REACTIONS : Nat := 0x00000040

/-- Modelled from the spec: the "read messages" flag. -/
def Permissions.READ_MESSAGES : Nat := 0x00000400

/-- Modelled from the spec: the "send messages" flag. -/
def Permissions.SEND_MESSAGES : Nat := 0x00000800

/-- Modelled from the spec: the "send TTS messages" flag. -/
def Permissions.SEND_TTS_MESSAGES : Nat := 0x00001000

/-- Modelled from the spec: the "manage messages" flag. -/
def Permissions.MANAGE_MESSAGES : Nat := 0x00002000

/-- Modelled from the spec: the "embed links" flag. -/
def Permissions.EMBED_LINKS : Nat := 0x00004000

/-- Modelled from the spec: the "attach files" flag. -/
def Permissions.ATTACH_FILES : Nat := 0x00008000

/-- Modelled from the spec: the "read message history" flag. -/
def Permissions.READ_MESSAGE_HISTORY : Nat := 0x00010000

/-- Modelled from the spec: the "mention everyone" flag. -/
def Permissions.MENTION_EVERYONE : Nat := 0x00020000

/-- Modelled from the spec: the "use external emojis" flag. -/
def Permissions.USE_EXTERNAL_EMOJIS : Nat := 0x00040000

/-- Modelled from the spec: the voice "connect" flag. -/
def Permissions.CONNECT : Nat := 0x00100000

/-- Modelled from the spec: the voice "speak" flag. -/
def Permissions.SPEAK : Nat := 0x00200000

/-- Modelled from the spec: the voice "mute members" flag. -/
def Permissions.MUTE_MEMBERS : Nat := 0x00400000

/-- Modelled from the spec: the voice "deafen members" flag. -/
def Permissions.DEAFEN_MEMBERS : Nat := 0x00800000

/-- Modelled from the spec: the voice "move members" flag. -/
def Permissions.MOVE_MEMBERS : Nat := 0x01000000

/-- Modelled from the spec: the voice "use voice activity" flag. -/
def Permissions.USE_VAD : Nat := 0x02000000

/-- Modelled from the spec: the "change nickname" flag. -/
def Permissions.CHANGE_NICKNAME : Nat := 0x04000000

/-- Modelled from the spec: the "manage nicknames" flag. -/
def Permissions.MANAGE_NICKNAMES : Nat := 0x08000000

/-- Modelled from the spec: the "manage roles" flag. -/
def Permissions.MANAGE_ROLES : Nat := 0x10000000

/-- Modelled from the spec: the "manage webhooks" flag. -/
def Permissions.MANAGE_WEBHOOKS : Nat := 0x20000000

/-- Modelled from the spec: the "manage emojis" flag. -/
def Permissions.MANAGE_EMOJIS : Nat := 0x40000000

/-- Modelled from the spec: `Permissions::all()` — the union of every defined
flag. -/
def Permissions.all : Nat :=
Permissions.CREATE_INVITE ||| Permissions.KICK_MEMBERS |||
Permissions.BAN_MEMBERS ||| Permissions.ADMINISTRATOR |||
Permissions.MANAGE_CHANNELS ||| Permissions.MANAGE_GUILD |||
Permissions.ADD_REACTIONS ||| Permissions.READ_MESSAGES |||
Permissions.SEND_MESSAGES ||| Permissions.SEND_TTS_MESSAGES |||
Permissions.MANAGE_MESSAGES ||| Permissions.EMBED_LINKS |||
Permissions.ATTACH_FILES ||| Permissions.READ_MESSAGE_HISTORY |||
Permissions.MENTION_EVERYONE ||| Permissions.USE_EXTERNAL_EMOJIS |||
Permissions.CONNECT ||| Permissions.SPEAK |||
Permissions.MUTE_MEMBERS ||| Permissions.DEAFEN_MEMBERS |||
Permissions.MOVE_MEMBERS ||| Permissions.USE_VAD |||
Permissions.CHANGE_NICKNAME ||| Permissions.MANAGE_NICKNAMES |||
Permissions.MANAGE_ROLES ||| Permissions.MANAGE_WEBHOOKS |||
Permissions.MANAGE_EMOJIS

/-- Modelled from the spec: `Permissions::empty()` — the zero mask. -/
def Permissions.empty : Nat := 0

/-- Modelled from the spec: the bitflags `contains` test,
`self.bits & other.bits == other.bits`. -/
def Permissions.contains (m f : Nat) : Bool := m &&& f == f

/-- All ones in 64 bits; `u64::MAX`. -/
def u64max : Nat := 2 ^ 64 - 1

/-- The `u64` bitwise complement `!b`, embedded on `Nat`. -/
def bitnot (b : Nat) : Nat := u64max ^^^ b

/-- Modelled from the spec: a role record (`role.rs` is not among the provided
sources; the spec gives it an identifier and a `permissions` bitmask).  Fields
irrelevant to permission resolution are omitted. -/
structure Role where
  id : Nat
  permissions : Nat
deriving DecidableEq

/-- A guild member (`src/guild/member.rs`), reduced to the fields the
permission resolver reads: the attached user's id and the held role ids, in
stored order. -/
structure Member where
  user : Nat
  roles : List Nat
deriving DecidableEq

/-- The channel-kind discriminant (`src/channel/mod.rs`, `ChannelType`). -/
inductive ChannelType where
  | Group
  | Private
  | Text
  | Voice
  | Category
deriving DecidableEq

/-- The target of a channel permission overwrite
(`src/channel/mod.rs`, `PermissionOverwriteType`). -/
inductive PermissionOverwriteType where
  | Member (user_id : Nat)
  | Role (role_id : Nat)
deriving DecidableEq

/-- A channel-specific permission overwrite (`src/channel/mod.rs`,
`PermissionOverwrite`): `allow` and `deny` bitmasks and a target. -/
structure PermissionOverwrite where
  allow : Nat
  deny : Nat
  kind : PermissionOverwriteType
deriving DecidableEq

/-- A guild channel (`src/channel/guild_channel.rs`), reduced to the fields
the permission resolver reads. -/
structure GuildChannel where
  id : Nat
  kind : ChannelType
  permission_overwrites : List PermissionOverwrite
deriving DecidableEq

/-- A guild (`src/guild/mod.rs`), reduced to the fields the permission
resolver reads.  The `HashMap` collections are embedded as association
lists. -/
structure Guild where
  id : Nat
  owner_id : Nat
  roles : List (Nat × Role)
  members : List (Nat × Member)
  channels : List (Nat × GuildChannel)
deriving DecidableEq

/-- First-match lookup in an association list; the embedding of
`HashMap::get`. -/
def assocGet {α : Type} (k : Nat) : List (Nat × α) → Option α
  | [] => none
  | p :: rest => if k = p.1 then some p.2 else assocGet k rest

/-- The role-accumulation loop of `Guild::member_permissions`: walk the
member's role ids in stored order; a missing role is skipped (logged only);
a role whose permissions contain `ADMINISTRATOR` short-circuits to
`Permissions::all()`; otherwise its permissions are unioned in. -/
def member_roles_fold (g : Guild) : List Nat → Nat → Nat
  | [], acc => acc
  | r :: rest, acc =>
    match assocGet r g.roles with
    | some role =>
      if Permissions.contains role.permissions Permissions.ADMINISTRATOR
      then Permissions.all
      else member_roles_fold g rest (acc ||| role.permissions)
    | none => member_roles_fold g rest acc

/-- `Guild::member_permissions` (`src/guild/mod.rs`). -/
def member_permissions (g : Guild) (user_id : Nat) : Nat :=
  if user_id = g.owner_id then Permissions.all
  else
    match assocGet g.id g.roles with
    | none => Permissions.empty
    | some everyone =>
      match assocGet user_id g.members with
      | none => everyone.permissions
      | some member => member_roles_fold g member.roles everyone.permissions

/-- The role-accumulation loop of `Guild::permissions_in`: like the loop of
`member_permissions` but with no administrator short-circuit inside the loop
(the accumulated mask is tested afterwards). -/
def accumulate_roles (g : Guild) : List Nat → Nat → Nat
  | [], acc => acc
  | r :: rest, acc =>
    match assocGet r g.roles with
    | some role => accumulate_roles g rest (acc ||| role.permissions)
    | none => accumulate_roles g rest acc

/-- One overwrite application: `permissions = (permissions & !deny) | allow`
(`Guild::permissions_in`). -/
def apply_overwrite (mask : Nat) (o : PermissionOverwrite) : Nat :=
  (mask &&& bitnot o.deny) ||| o.allow

/-- Pass 1 of the overwrite merge (`Guild::permissions_in`): role-targeted
overwrites, skipped unless the target is the default role or a role the
member holds; visited in stored list order. -/
def role_overwrite_pass (g : Guild) (member : Member) :
    List PermissionOverwrite → Nat → Nat
  | [], mask => mask
  | o :: rest, mask =>
    match o.kind with
    | PermissionOverwriteType.Role r =>
      if r ≠ g.id ∧ r ∉ member.roles
      then role_overwrite_pass g member rest mask
      else role_overwrite_pass g member rest (apply_overwrite mask o)
    | _ => role_overwrite_pass g member rest mask

/-- Pass 2 of the overwrite merge (`Guild::permissions_in`): overwrites
targeting this specific member, applied unconditionally in stored list
order. -/
def member_overwrite_pass (user_id : Nat) :
    List PermissionOverwrite → Nat → Nat
  | [], mask => mask
  | o :: rest, mask =>
    if o.kind = PermissionOverwriteType.Member user_id
    then member_overwrite_pass user_id rest (apply_overwrite mask o)
    else member_overwrite_pass user_id rest mask

/-- The six voice-only flags cleared on text channels
(`Guild::permissions_in`). -/
def VOICE_MASK : Nat :=
Permissions.CONNECT ||| Permissions.SPEAK ||| Permissions.MUTE_MEMBERS |||
Permissions.DEAFEN_MEMBERS ||| Permissions.MOVE_MEMBERS |||
Permissions.USE_VAD

/-- The four flags cleared when `SEND_MESSAGES` is absent
(`Guild::permissions_in`). -/
def SEND_DEPENDENT : Nat :=
Permissions.SEND_TTS_MESSAGES ||| Permissions.MENTION_EVERYONE |||
Permissions.EMBED_LINKS ||| Permissions.ATTACH_FILES

/-- The fixed allow-list the mask is intersected with when `READ_MESSAGES`
is absent (`Guild::permissions_in`). -/
def READ_FALLBACK : Nat :=
Permissions.KICK_MEMBERS ||| Permissions.BAN_MEMBERS |||
Permissions.ADMINISTRATOR ||| Permissions.MANAGE_GUILD |||
Permissions.CHANGE_NICKNAME ||| Permissions.MANAGE_NICKNAMES

/-- The channel-dependent block of `Guild::permissions_in`: if the channel is
found, clear voice flags on text channels, then run the role pass and the
member pass over its overwrite list; a missing channel is logged only and
leaves the mask unchanged. -/
def channel_overwrites_stage (g : Guild) (channel_id : Nat) (member : Member)
    (user_id : Nat) (perms : Nat) : Nat :=
  match assocGet channel_id g.channels with
  | some channel =>
    let p0 :=
      if channel.kind = ChannelType.Text
      then perms &&& bitnot VOICE_MASK
      else perms
    member_overwrite_pass user_id channel.permission_overwrites
      (role_overwrite_pass g member channel.permission_overwrites p0)
  | none => perms

/-- The default-channel rule of `Guild::permissions_in`: the default channel
(channel id equal to the guild id) is always readable. -/
def default_channel_stage (g : Guild) (channel_id : Nat) (p : Nat) : Nat :=
  if channel_id = g.id then p ||| Permissions.READ_MESSAGES else p

/-- Suppression rule of `Guild::permissions_in`: without `SEND_MESSAGES`,
clear the send-dependent flags. -/
def send_suppression_stage (p : Nat) : Nat :=
  if Permissions.contains p Permissions.SEND_MESSAGES then p
  else p &&& bitnot SEND_DEPENDENT

/-- Suppression rule of `Guild::permissions_in`: without `READ_MESSAGES`,
intersect with the fixed allow-list. -/
def read_suppression_stage (p : Nat) : Nat :=
  if Permissions.contains p Permissions.READ_MESSAGES then p
  else p &&& READ_FALLBACK

/-- `Guild::permissions_in` (`src/guild/mod.rs`). -/
def permissions_in (g : Guild) (channel_id : Nat) (user_id : Nat) : Nat :=
  if user_id = g.owner_id then Permissions.all
  else
    match assocGet g.id g.roles with
    | none => Permissions.empty
    | some everyone =>
      match assocGet user_id g.members with
      | none => everyone.permissions
      | some member =>
        let perms := accumulate_roles g member.roles everyone.permissions
        if Permissions.contains perms Permissions.ADMINISTRATOR
        then Permissions.all
        else
          read_suppression_stage (send_suppression_stage
            (default_channel_stage g channel_id
              (channel_overwrites_stage g channel_id member user_id perms)))

/-! ### Bitmask toolkit -/

/-- `contains` at a single-bit mask is a `testBit` query. -/
theorem contains_two_pow (m k : Nat) :
    Permissions.contains m (2 ^ k) = m.testBit k := by
  unfold Permissions.contains
  rw [Nat.and_two_pow]
  cases h : m.testBit k <;> simp [h]
  positivity

/-- `contains m ADMINISTRATOR` tests bit 3. -/
theorem contains_admin_eq (m : Nat) :
    Permissions.contains m Permissions.ADMINISTRATOR = m.testBit 3 := by
  have h : Permissions.ADMINISTRATOR = 2 ^ 3 := by decide
  rw [h, contains_two_pow]

/-- `contains m READ_MESSAGES` tests bit 10. -/
theorem contains_read_eq (m : Nat) :
    Permissions.contains m Permissions.READ_MESSAGES = m.testBit 10 := by
  have h : Permissions.READ_MESSAGES = 2 ^ 10 := by decide
  rw [h, contains_two_pow]

/-- `contains m SEND_MESSAGES` tests bit 11. -/
theorem contains_send_eq (m : Nat) :
    Permissions.contains m Permissions.SEND_MESSAGES = m.testBit 11 := by
  have h : Permissions.SEND_MESSAGES = 2 ^ 11 := by decide
  rw [h, contains_two_pow]

/-- `&&&` distributes over `|||` on the left argument. -/
theorem land_lor_right (a b c : Nat) :
    (a ||| b) &&& c = (a &&& c) ||| (b &&& c) := by
  apply Nat.eq_of_testBit_eq
  intro i
  simp only [Nat.testBit_land, Nat.testBit_lor]
  cases a.testBit i <;> cases b.testBit i <;> cases c.testBit i <;> rfl

/-- Swap the two right factors of a double `&&&`. -/
theorem land_right_comm (a b c : Nat) :
    (a &&& b) &&& c = (a &&& c) &&& b := by
  rw [Nat.land_assoc, Nat.land_comm b c, ← Nat.land_assoc]

/-- A mask disjoint from `c` stays disjoint after any further `&&&`. -/
theorem land_zero_mono (a c d : Nat) (h : a &&& c = 0) :
    (a &&& d) &&& c = 0 := by
  rw [land_right_comm, h]
  simp

/-- A union of two masks disjoint from `c` is disjoint from `c`. -/
theorem lor_land_zero (a b c : Nat) (ha : a &&& c = 0) (hb : b &&& c = 0) :
    (a ||| b) &&& c = 0 := by
  rw [land_lor_right, ha, hb]
  rfl

/-! ### Claim theorems -/

/-- C2: when the queried user id equals the guild's owner id, both resolution
functions return the full mask `all()` unconditionally, for every guild and
every channel id — regardless of roles, overwrites, missing default role, or
missing channel. -/
theorem owner_has_all_permissions (g : Guild) (channel_id user_id : Nat)
    (h : user_id = g.owner_id) :
    member_permissions g user_id = Permissions.all ∧
    permissions_in g channel_id user_id = Permissions.all := by
  constructor <;> simp [member_permissions, permissions_in, h]

/-- Witness for C2: a concrete guild with no roles, members or channels still
yields `all()` for its owner. -/
theorem owner_has_all_permissions_witness :
    member_permissions ⟨1, 100, [], [], []⟩ 100 = Permissions.all ∧
    permissions_in ⟨1, 100, [], [], []⟩ 7 100 = Permissions.all :=
  owner_has_all_permissions ⟨1, 100, [], [], []⟩ 7 100 rfl

/-- C5 counterexample: an overwrite carrying the same flag (READ_MESSAGES,
bit 10) in both `allow` and `deny`, applied to the empty working mask, leaves
the flag SET — allow wins, deny does not take precedence as claimed. -/
theorem overwrite_deny_precedence_cx :
    (PermissionOverwrite.mk Permissions.READ_MESSAGES
        Permissions.READ_MESSAGES (PermissionOverwriteType.Member 2)).allow.testBit 10
      = true ∧
    (PermissionOverwrite.mk Permissions.READ_MESSAGES
        Permissions.READ_MESSAGES (PermissionOverwriteType.Member 2)).deny.testBit 10
      = true ∧
    (apply_overwrite Permissions.empty
        (PermissionOverwrite.mk Permissions.READ_MESSAGES
          Permissions.READ_MESSAGES (PermissionOverwriteType.Member 2))).testBit 10
      = true := by
  decide

/-- C5 (amended): within a single overwrite whose `allow` and `deny` masks
both contain the same flag, allow takes precedence: after applying
`mask = (mask & !deny) | allow` the flag is set in the working mask. -/
theorem overwrite_allow_overrides_deny (mask f : Nat) (o : PermissionOverwrite)
    (h1 : o.allow.testBit f = true) (h2 : o.deny.testBit f = true) :
    (apply_overwrite mask o).testBit f = true := by
  simp [apply_overwrite, Nat.testBit_lor, h1]

/-- Witness for C5 (amended), at the counterexample's concrete overwrite. -/
theorem overwrite_allow_overrides_deny_witness :
    (apply_overwrite Permissions.empty
        (PermissionOverwrite.mk Permissions.READ_MESSAGES
          Permissions.READ_MESSAGES (PermissionOverwriteType.Member 2))).testBit 10
      = true :=
  overwrite_allow_overrides_deny Permissions.empty 10
    (PermissionOverwrite.mk Permissions.READ_MESSAGES Permissions.READ_MESSAGES
      (PermissionOverwriteType.Member 2))
    (by decide) (by decide)

/-- C7: when the guild's role map has no role whose id equals the guild's id
and the queried user is not the owner, both resolution functions return
`empty()`; being total Lean functions, they do so without aborting (the log
report is a side effect not modelled). -/
theorem missing_default_role_returns_empty (g : Guild) (channel_id user_id : Nat)
    (h1 : assocGet g.id g.roles = none) (h2 : user_id ≠ g.owner_id) :
    member_permissions g user_id = Permissions.empty ∧
    permissions_in g channel_id user_id = Permissions.empty := by
  constructor <;> simp [member_permissions, permissions_in, h1, h2]

/-- Witness for C7: a guild holding a member and a channel but no default
role resolves to the empty mask on both paths. -/
theorem missing_default_role_returns_empty_witness :
    member_permissions ⟨1, 9, [(5, ⟨5, 0x8⟩)], [(2, ⟨2, [5]⟩)], []⟩ 2
      = Permissions.empty ∧
    permissions_in ⟨1, 9, [(5, ⟨5, 0x8⟩)], [(2, ⟨2, [5]⟩)], []⟩ 3 2
      = Permissions.empty :=
  missing_default_role_returns_empty
    ⟨1, 9, [(5, ⟨5, 0x8⟩)], [(2, ⟨2, [5]⟩)], []⟩ 3 2 (by decide) (by decide)

/-- C8: a user who is neither the owner nor in the member map, with the
default role present, receives exactly the default role's permissions mask
from guild-wide resolution. -/
theorem non_member_gets_everyone_permissions (g : Guild) (user_id : Nat)
    (everyone : Role)
    (h1 : user_id ≠ g.owner_id)
    (h2 : assocGet g.id g.roles = some everyone)
    (h3 : assocGet user_id g.members = none) :
    member_permissions g user_id = everyone.permissions := by
  simp [member_permissions, h1, h2, h3]

/-- Witness for C8 at a concrete guild: the outsider gets the default role's
mask (READ|SEND here) unchanged. -/
theorem non_member_gets_everyone_permissions_witness :
    member_permissions ⟨1, 9, [(1, ⟨1, 0xC00⟩)], [], []⟩ 2 = (⟨1, 0xC00⟩ : Role).permissions :=
  non_member_gets_everyone_permissions ⟨1, 9, [(1, ⟨1, 0xC00⟩)], [], []⟩ 2
    ⟨1, 0xC00⟩ (by decide) (by decide) (by decide)

/-- C10: in channel-scoped resolution a user who is neither the owner nor a
guild member (default role present) receives the default role's permissions
mask immediately, for any channel id — no voice-flag clearing, overwrite
merging, default-channel rule, or suppression is applied. -/
theorem permissions_in_non_member_early_return (g : Guild)
    (channel_id user_id : Nat) (everyone : Role)
    (h1 : user_id ≠ g.owner_id)
    (h2 : assocGet g.id g.roles = some everyone)
    (h3 : assocGet user_id g.members = none) :
    permissions_in g channel_id user_id = everyone.permissions := by
  simp [permissions_in, h1, h2, h3]

/-- If some role id in the list resolves to a role whose permissions contain
`ADMINISTRATOR`, the `member_permissions` loop short-circuits to `all()`,
whatever the accumulator. -/
theorem member_roles_fold_all (g : Guild) :
    ∀ (l : List Nat) (acc : Nat),
    (∃ r ∈ l, ∃ role : Role, assocGet r g.roles = some role ∧
      Permissions.contains role.permissions Permissions.ADMINISTRATOR = true) →
    member_roles_fold g l acc = Permissions.all := by
  intro l
  induction l with
  | nil =>
    intro acc h
    rcases h with ⟨r, hr, _⟩
    cases hr
  | cons r' rest ih =>
    intro acc h
    rcases h with ⟨r, hr, role, hrole, hadm⟩
    rcases List.mem_cons.mp hr with heq | hmem
    · subst heq
      cases hget : assocGet r g.roles with
      | none => rw [hget] at hrole; cases hrole
      | some role' =>
        rw [hget] at hrole
        injection hrole with hr2
        subst hr2
        simp [member_roles_fold, hget, hadm]
    · cases hget : assocGet r' g.roles with
      | none =>
        simp only [member_roles_fold, hget]
        exact ih _ ⟨r, hmem, role, hrole, hadm⟩
      | some role' =>
        by_cases hc : Permissions.contains role'.permissions Permissions.ADMINISTRATOR = true
        · simp [member_roles_fold, hget, hc]
        · simp only [member_roles_fold, hget, hc, if_neg]
          exact ih _ ⟨r, hmem, role, hrole, hadm⟩

/-- The `permissions_in` role-accumulation loop never clears a bit of the
accumulator. -/
theorem accumulate_roles_testBit_mono (g : Guild) (i : Nat) :
    ∀ (l : List Nat) (acc : Nat), acc.testBit i = true →
    (accumulate_roles g l acc).testBit i = true := by
  intro l
  induction l with
  | nil => intro acc h; simpa [accumulate_roles] using h
  | cons r rest ih =>
    intro acc h
    cases hget : assocGet r g.roles with
    | none =>
      simp only [accumulate_roles, hget]
      exact ih _ h
    | some role =>
      simp only [accumulate_roles, hget]
      exact ih _ (by simp [Nat.testBit_lor, h])

/-- If some role id in the list resolves to a role carrying bit `i`, the
`permissions_in` role-accumulation loop's result carries bit `i`. -/
theorem accumulate_roles_testBit_of_mem (g : Guild) (i : Nat) :
    ∀ (l : List Nat) (acc : Nat),
    (∃ r ∈ l, ∃ role : Role, assocGet r g.roles = some role ∧
      role.permissions.testBit i = true) →
    (accumulate_roles g l acc).testBit i = true := by
  intro l
  induction l with
  | nil =>
    intro acc h
    rcases h with ⟨r, hr, _⟩
    cases hr
  | cons r' rest ih =>
    intro acc h
    rcases h with ⟨r, hr, role, hrole, hbit⟩
    rcases List.mem_cons.mp hr with heq | hmem
    · subst heq
      cases hget : assocGet r g.roles with
      | none => rw [hget] at hrole; cases hrole
      | some role' =>
        rw [hget] at hrole
        injection hrole with hr2
        subst hr2
        simp only [accumulate_roles, hget]
        exact accumulate_roles_testBit_mono g i rest _ (by simp [Nat.testBit_lor, hbit])
    · cases hget : assocGet r' g.roles with
      | none =>
        simp only [accumulate_roles, hget]
        exact ih _ ⟨r, hmem, role, hrole, hbit⟩
      | some role' =>
        simp only [accumulate_roles, hget]
        exact ih _ ⟨r, hmem, role, hrole, hbit⟩

/-- C3 counterexample: in a guild whose role map lacks the default role
(id = guild id), a member holding an existing role with the administrator
flag gets `empty()`, not `all()`, from both resolution functions. -/
theorem admin_without_default_role_cx :
    assocGet 2 (⟨1, 100, [(5, ⟨5, Permissions.ADMINISTRATOR⟩)],
        [(2, ⟨2, [5]⟩)], []⟩ : Guild).members = some ⟨2, [5]⟩ ∧
    assocGet 5 (⟨1, 100, [(5, ⟨5, Permissions.ADMINISTRATOR⟩)],
        [(2, ⟨2, [5]⟩)], []⟩ : Guild).roles = some ⟨5, Permissions.ADMINISTRATOR⟩ ∧
    Permissions.contains Permissions.ADMINISTRATOR Permissions.ADMINISTRATOR = true ∧
    member_permissions (⟨1, 100, [(5, ⟨5, Permissions.ADMINISTRATOR⟩)],
        [(2, ⟨2, [5]⟩)], []⟩ : Guild) 2 ≠ Permissions.all ∧
    permissions_in (⟨1, 100, [(5, ⟨5, Permissions.ADMINISTRATOR⟩)],
        [(2, ⟨2, [5]⟩)], []⟩ : Guild) 7 2 ≠ Permissions.all := by
  decide

/-- C3 (amended): for a guild member holding at least one role, present in
the role map, whose permissions include the administrator flag, both
resolution functions return `all()` — provided the default role is present
(without it both functions return `empty()` first). In the channel-scoped
variant the accumulated mask is tested before any overwrite processing. -/
theorem admin_role_grants_all (g : Guild) (channel_id user_id : Nat)
    (everyone role : Role) (member : Member) (r : Nat)
    (hev : assocGet g.id g.roles = some everyone)
    (hm : assocGet user_id g.members = some member)
    (hr : r ∈ member.roles)
    (hrole : assocGet r g.roles = some role)
    (hadmin : Permissions.contains role.permissions Permissions.ADMINISTRATOR = true) :
    member_permissions g user_id = Permissions.all ∧
    permissions_in g channel_id user_id = Permissions.all := by
  by_cases how : user_id = g.owner_id
  · constructor <;> simp [member_permissions, permissions_in, how]
  · constructor
    · simp only [member_permissions, how, if_false, hev, hm]
      exact member_roles_fold_all g member.roles everyone.permissions
        ⟨r, hr, role, hrole, hadmin⟩
    · have hb : Permissions.contains
          (accumulate_roles g member.roles everyone.permissions)
          Permissions.ADMINISTRATOR = true := by
        rw [contains_admin_eq]
        refine accumulate_roles_testBit_of_mem g 3 member.roles everyone.permissions
          ⟨r, hr, role, hrole, ?_⟩
        rw [← contains_admin_eq]
        exact hadmin
      simp [permissions_in, how, hev, hm, hb]

/-- Witness for C3 (amended): a concrete member whose role 5 carries the
administrator flag resolves to `all()` on both paths. -/
theorem admin_role_grants_all_witness :
    member_permissions (⟨1, 100, [(1, ⟨1, 0⟩), (5, ⟨5, Permissions.ADMINISTRATOR⟩)],
        [(2, ⟨2, [5]⟩)], []⟩ : Guild) 2 = Permissions.all ∧
    permissions_in (⟨1, 100, [(1, ⟨1, 0⟩), (5, ⟨5, Permissions.ADMINISTRATOR⟩)],
        [(2, ⟨2, [5]⟩)], []⟩ : Guild) 7 2 = Permissions.all :=
  admin_role_grants_all
    ⟨1, 100, [(1, ⟨1, 0⟩), (5, ⟨5, Permissions.ADMINISTRATOR⟩)], [(2, ⟨2, [5]⟩)], []⟩
    7 2 ⟨1, 0⟩ ⟨5, Permissions.ADMINISTRATOR⟩ ⟨2, [5]⟩ 5
    (by decide) (by decide) (by decide) (by decide) (by decide)

/-- Applying one overwrite whose `allow` is disjoint from `c` preserves
disjointness from `c`. -/
theorem apply_overwrite_land_zero (mask : Nat) (o : PermissionOverwrite) (c : Nat)
    (hm : mask &&& c = 0) (ha : o.allow &&& c = 0) :
    apply_overwrite mask o &&& c = 0 := by
  unfold apply_overwrite
  exact lor_land_zero _ _ _ (land_zero_mono _ _ _ hm) ha

/-- The role-overwrite pass preserves disjointness from `c` when no overwrite
in the list allows a bit of `c`. -/
theorem role_pass_land_zero (g : Guild) (member : Member) (c : Nat) :
    ∀ (l : List PermissionOverwrite) (mask : Nat), mask &&& c = 0 →
    (∀ o ∈ l, o.allow &&& c = 0) →
    role_overwrite_pass g member l mask &&& c = 0 := by
  intro l
  induction l with
  | nil => intro mask hm _; simpa [role_overwrite_pass] using hm
  | cons o rest ih =>
    intro mask hm hall
    have ho := hall o (List.mem_cons_self o rest)
    have hrest : ∀ o' ∈ rest, o'.allow &&& c = 0 :=
      fun o' h' => hall o' (List.mem_cons_of_mem _ h')
    cases hk : o.kind with
    | Role r =>
      by_cases hcond : r ≠ g.id ∧ r ∉ member.roles
      · simp only [role_overwrite_pass, hk, if_pos hcond]
        exact ih mask hm hrest
      · simp only [role_overwrite_pass, hk, if_neg hcond]
        exact ih _ (apply_overwrite_land_zero mask o c hm ho) hrest
    | Member u =>
      simp only [role_overwrite_pass, hk]
      exact ih mask hm hrest

/-- The member-overwrite pass preserves disjointness from `c` when no
overwrite in the list allows a bit of `c`. -/
theorem member_pass_land_zero (user_id c : Nat) :
    ∀ (l : List PermissionOverwrite) (mask : Nat), mask &&& c = 0 →
    (∀ o ∈ l, o.allow &&& c = 0) →
    member_overwrite_pass user_id l mask &&& c = 0 := by
  intro l
  induction l with
  | nil => intro mask hm _; simpa [member_overwrite_pass] using hm
  | cons o rest ih =>
    intro mask hm hall
    have ho := hall o (List.mem_cons_self o rest)
    have hrest : ∀ o' ∈ rest, o'.allow &&& c = 0 :=
      fun o' h' => hall o' (List.mem_cons_of_mem _ h')
    by_cases hk : o.kind = PermissionOverwriteType.Member user_id
    · simp only [member_overwrite_pass, if_pos hk]
      exact ih _ (apply_overwrite_land_zero mask o c hm ho) hrest
    · simp only [member_overwrite_pass, if_neg hk]
      exact ih mask hm hrest

/-- The default-channel rule preserves disjointness from any `c` disjoint
from READ_MESSAGES. -/
theorem default_stage_land_zero (g : Guild) (channel_id p c : Nat)
    (h : p &&& c = 0) (hr : Permissions.READ_MESSAGES &&& c = 0) :
    default_channel_stage g channel_id p &&& c = 0 := by
  unfold default_channel_stage
  split
  · exact lor_land_zero _ _ _ h hr
  · exact h

/-- The send-suppression rule preserves disjointness from `c`. -/
theorem send_stage_land_zero (p c : Nat) (h : p &&& c = 0) :
    send_suppression_stage p &&& c = 0 := by
  unfold send_suppression_stage
  split
  · exact h
  · exact land_zero_mono _ _ _ h

/-- The read-suppression rule preserves disjointness from `c`. -/
theorem read_stage_land_zero (p c : Nat) (h : p &&& c = 0) :
    read_suppression_stage p &&& c = 0 := by
  unfold read_suppression_stage
  split
  · exact h
  · exact land_zero_mono _ _ _ h

/-- C4 counterexample: on a text-kind channel, a member overwrite that allows
the voice-only CONNECT flag (bit 20) survives into the returned mask — the
voice flags are cleared before the overwrite merge, so an explicit overwrite
re-grants them, contrary to the claim. -/
theorem text_channel_voice_overwrite_cx :
    assocGet 5 (⟨1, 100, [(1, ⟨1, Permissions.READ_MESSAGES⟩)], [(2, ⟨2, []⟩)],
        [(5, ⟨5, ChannelType.Text,
          [⟨Permissions.CONNECT, 0, PermissionOverwriteType.Member 2⟩]⟩)]⟩ : Guild).channels
      = some ⟨5, ChannelType.Text,
          [⟨Permissions.CONNECT, 0, PermissionOverwriteType.Member 2⟩]⟩ ∧
    VOICE_MASK.testBit 20 = true ∧
    (permissions_in (⟨1, 100, [(1, ⟨1, Permissions.READ_MESSAGES⟩)], [(2, ⟨2, []⟩)],
        [(5, ⟨5, ChannelType.Text,
          [⟨Permissions.CONNECT, 0, PermissionOverwriteType.Member 2⟩]⟩)]⟩ : Guild) 5 2).testBit 20
      = true := by
  decide

/-- C4 (amended): for a text-kind channel, the working mask is stripped of
voice-only flags before the overwrite merge; hence for a guild member (not
the owner, accumulated base mask without the administrator flag, default role
present) the returned mask has no voice-only flag set provided no overwrite
on the channel has a voice-only flag in its `allow` mask. An overwrite that
does allow such a flag re-grants it. -/
theorem text_channel_voice_flags_cleared (g : Guild) (channel_id user_id : Nat)
    (everyone : Role) (member : Member) (channel : GuildChannel)
    (h0 : user_id ≠ g.owner_id)
    (hev : assocGet g.id g.roles = some everyone)
    (hm : assocGet user_id g.members = some member)
    (hna : Permissions.contains (accumulate_roles g member.roles everyone.permissions)
      Permissions.ADMINISTRATOR = false)
    (hch : assocGet channel_id g.channels = some channel)
    (htext : channel.kind = ChannelType.Text)
    (hallow : ∀ o ∈ channel.permission_overwrites, o.allow &&& VOICE_MASK = 0) :
    permissions_in g channel_id user_id &&& VOICE_MASK = 0 := by
  have hbase : (accumulate_roles g member.roles everyone.permissions &&&
      bitnot VOICE_MASK) &&& VOICE_MASK = 0 := by
    rw [Nat.land_assoc]
    have hz : bitnot VOICE_MASK &&& VOICE_MASK = 0 := by decide
    rw [hz]
    simp
  have hstage : channel_overwrites_stage g channel_id member user_id
      (accumulate_roles g member.roles everyone.permissions) &&& VOICE_MASK = 0 := by
    unfold channel_overwrites_stage
    rw [hch]
    simp only [htext, if_pos]
    exact member_pass_land_zero user_id VOICE_MASK channel.permission_overwrites _
      (role_pass_land_zero g member VOICE_MASK channel.permission_overwrites _
        hbase hallow)
      hallow
  simp only [permissions_in, if_neg h0, hev, hm, hna]
  simp only [Bool.false_eq_true, if_false]
  exact read_stage_land_zero _ _ (send_stage_land_zero _ _
    (default_stage_land_zero g channel_id _ _ hstage (by decide)))

/-- Witness for C4 (amended): a concrete text channel whose overwrites allow
no voice flag yields a mask disjoint from the voice flags. -/
theorem text_channel_voice_flags_cleared_witness :
    permissions_in (⟨1, 100, [(1, ⟨1, Permissions.READ_MESSAGES ||| Permissions.CONNECT⟩)],
        [(2, ⟨2, []⟩)],
        [(5, ⟨5, ChannelType.Text,
          [⟨Permissions.SEND_MESSAGES, 0, PermissionOverwriteType.Member 2⟩]⟩)]⟩ : Guild) 5 2
      &&& VOICE_MASK = 0 :=
  text_channel_voice_flags_cleared
    ⟨1, 100, [(1, ⟨1, Permissions.READ_MESSAGES ||| Permissions.CONNECT⟩)], [(2, ⟨2, []⟩)],
      [(5, ⟨5, ChannelType.Text,
        [⟨Permissions.SEND_MESSAGES, 0, PermissionOverwriteType.Member 2⟩]⟩)]⟩
    5 2 ⟨1, Permissions.READ_MESSAGES ||| Permissions.CONNECT⟩ ⟨2, []⟩
    ⟨5, ChannelType.Text, [⟨Permissions.SEND_MESSAGES, 0, PermissionOverwriteType.Member 2⟩]⟩
    (by decide) (by decide) (by decide) (by decide) (by decide) (by decide)
    (by decide)

/-- Witness for C10: even querying the default channel of a concrete guild
(where the default-channel rule would force READ for members), a non-member
gets the default role's mask as-is — here a mask without READ. -/
theorem permissions_in_non_member_early_return_witness :
    permissions_in ⟨1, 9, [(1, ⟨1, 0x800⟩)], [], []⟩ 1 2 = (⟨1, 0x800⟩ : Role).permissions :=
  permissions_in_non_member_early_return ⟨1, 9, [(1, ⟨1, 0x800⟩)], [], []⟩ 1 2
    ⟨1, 0x800⟩ (by decide) (by decide) (by decide)

/-- Send-suppression never touches bit 10 (READ_MESSAGES). -/
theorem send_stage_testBit10 (p : Nat) :
    (send_suppression_stage p).testBit 10 = p.testBit 10 := by
  unfold send_suppression_stage
  split
  · rfl
  · have h : (bitnot SEND_DEPENDENT).testBit 10 = true := by decide
    simp [Nat.testBit_land, h]

/-- C6 counterexample: a guild whose role map lacks the default role resolves
a guild member's permissions on the default channel (channel id = guild id)
to `empty()`, which does not contain READ_MESSAGES — the claim's universal
quantification over all guilds fails. -/
theorem default_channel_read_missing_role_cx :
    assocGet 2 (⟨1, 9, [], [(2, ⟨2, []⟩)], []⟩ : Guild).members = some ⟨2, []⟩ ∧
    Permissions.contains
      (permissions_in (⟨1, 9, [], [(2, ⟨2, []⟩)], []⟩ : Guild) 1 2)
      Permissions.READ_MESSAGES = false := by
  decide

/-- C6 (amended): for every guild whose role map contains the default role,
channel-scoped resolution of any guild member on the channel id equal to the
guild's id returns a mask with READ_MESSAGES set — the flag is force-set
after the overwrite merge and survives both suppression rules. -/
theorem default_channel_read_guarantee (g : Guild) (user_id : Nat)
    (everyone : Role) (member : Member)
    (hev : assocGet g.id g.roles = some everyone)
    (hm : assocGet user_id g.members = some member) :
    Permissions.contains (permissions_in g g.id user_id)
      Permissions.READ_MESSAGES = true := by
  rw [contains_read_eq]
  by_cases how : user_id = g.owner_id
  · simp only [permissions_in, if_pos how]
    decide
  · by_cases hadm : Permissions.contains
        (accumulate_roles g member.roles everyone.permissions)
        Permissions.ADMINISTRATOR = true
    · simp only [permissions_in, if_neg how, hev, hm, hadm, if_true]
      decide
    · rw [Bool.not_eq_true] at hadm
      simp only [permissions_in, if_neg how, hev, hm, hadm, Bool.false_eq_true,
        if_false]
      have h10 : (default_channel_stage g g.id (channel_overwrites_stage g g.id
          member user_id (accumulate_roles g member.roles
            everyone.permissions))).testBit 10 = true := by
        unfold default_channel_stage
        rw [if_pos rfl]
        have hr : Permissions.READ_MESSAGES.testBit 10 = true := by decide
        simp [Nat.testBit_lor, hr]
      have hc : Permissions.contains (send_suppression_stage
          (default_channel_stage g g.id (channel_overwrites_stage g g.id member
            user_id (accumulate_roles g member.roles everyone.permissions))))
          Permissions.READ_MESSAGES = true := by
        rw [contains_read_eq, send_stage_testBit10]
        exact h10
      unfold read_suppression_stage
      rw [if_pos hc, send_stage_testBit10]
      exact h10

/-- Witness for C6 (amended): a member of a concrete guild whose default role
grants nothing still reads the default channel. -/
theorem default_channel_read_guarantee_witness :
    Permissions.contains
      (permissions_in (⟨1, 100, [(1, ⟨1, 0⟩)], [(2, ⟨2, []⟩)], []⟩ : Guild) 1 2)
      Permissions.READ_MESSAGES = true :=
  default_channel_read_guarantee ⟨1, 100, [(1, ⟨1, 0⟩)], [(2, ⟨2, []⟩)], []⟩ 2
    ⟨1, 0⟩ ⟨2, []⟩ (by decide) (by decide)

/-- If the working mask carries bit `f` and every member-targeted overwrite
for `user_id` in the list allows `f`, the member pass keeps bit `f`. -/
theorem member_pass_keeps_bit (user_id f : Nat) :
    ∀ (l : List PermissionOverwrite) (mask : Nat),
    mask.testBit f = true →
    (∀ o ∈ l, o.kind = PermissionOverwriteType.Member user_id →
      o.allow.testBit f = true) →
    (member_overwrite_pass user_id l mask).testBit f = true := by
  intro l
  induction l with
  | nil => intro mask h _; simpa [member_overwrite_pass] using h
  | cons o rest ih =>
    intro mask h hall
    have hrest : ∀ o' ∈ rest, o'.kind = PermissionOverwriteType.Member user_id →
        o'.allow.testBit f = true :=
      fun o' h' hk => hall o' (List.mem_cons_of_mem _ h') hk
    by_cases hk : o.kind = PermissionOverwriteType.Member user_id
    · simp only [member_overwrite_pass, if_pos hk]
      apply ih
      · have ha := hall o (List.mem_cons_self o rest) hk
        simp [apply_overwrite, Nat.testBit_lor, ha]
      · exact hrest
    · simp only [member_overwrite_pass, if_neg hk]
      exact ih mask h hrest

/-- If the list holds at least one member-targeted overwrite for `user_id`
and every such overwrite allows `f`, the member pass sets bit `f`, whatever
the incoming mask (in particular after any role-overwrite denial). -/
theorem member_pass_sets_bit (user_id f : Nat) :
    ∀ (l : List PermissionOverwrite) (mask : Nat),
    (∃ o ∈ l, o.kind = PermissionOverwriteType.Member user_id) →
    (∀ o ∈ l, o.kind = PermissionOverwriteType.Member user_id →
      o.allow.testBit f = true) →
    (member_overwrite_pass user_id l mask).testBit f = true := by
  intro l
  induction l with
  | nil =>
    intro mask hex _
    rcases hex with ⟨o, ho, _⟩
    cases ho
  | cons o rest ih =>
    intro mask hex hall
    have hrest : ∀ o' ∈ rest, o'.kind = PermissionOverwriteType.Member user_id →
        o'.allow.testBit f = true :=
      fun o' h' hk => hall o' (List.mem_cons_of_mem _ h') hk
    by_cases hk : o.kind = PermissionOverwriteType.Member user_id
    · simp only [member_overwrite_pass, if_pos hk]
      apply member_pass_keeps_bit
      · have ha := hall o (List.mem_cons_self o rest) hk
        simp [apply_overwrite, Nat.testBit_lor, ha]
      · exact hrest
    · simp only [member_overwrite_pass, if_neg hk]
      rcases hex with ⟨o', ho', hk'⟩
      rcases List.mem_cons.mp ho' with heq | hmem
      · subst heq
        exact absurd hk' hk
      · exact ih mask ⟨o', hmem, hk'⟩ hrest

/-- C1 counterexample: with a role overwrite (targeting the default role)
denying MANAGE_CHANNELS (bit 4) and a member overwrite allowing it, the
member overwrite does win the merge, but the returned mask still lacks the
flag: READ_MESSAGES is absent, so the final suppression step intersects the
mask with the fixed allow-list, which clears MANAGE_CHANNELS. -/
theorem member_overwrite_suppressed_cx :
    assocGet 5 (⟨1, 100, [(1, ⟨1, 0⟩)], [(2, ⟨2, []⟩)],
        [(5, ⟨5, ChannelType.Text,
          [⟨0, Permissions.MANAGE_CHANNELS, PermissionOverwriteType.Role 1⟩,
           ⟨Permissions.MANAGE_CHANNELS, 0, PermissionOverwriteType.Member 2⟩]⟩)]⟩
        : Guild).channels
      = some ⟨5, ChannelType.Text,
          [⟨0, Permissions.MANAGE_CHANNELS, PermissionOverwriteType.Role 1⟩,
           ⟨Permissions.MANAGE_CHANNELS, 0, PermissionOverwriteType.Member 2⟩]⟩ ∧
    Permissions.MANAGE_CHANNELS.testBit 4 = true ∧
    (permissions_in (⟨1, 100, [(1, ⟨1, 0⟩)], [(2, ⟨2, []⟩)],
        [(5, ⟨5, ChannelType.Text,
          [⟨0, Permissions.MANAGE_CHANNELS, PermissionOverwriteType.Role 1⟩,
           ⟨Permissions.MANAGE_CHANNELS, 0, PermissionOverwriteType.Member 2⟩]⟩)]⟩
        : Guild) 5 2).testBit 4 = false := by
  decide

/-- C1 (amended): under the claim's conditions (guild member, not the owner,
no administrator in the accumulated base, default role present, channel
present), a role overwrite denying flag F and member overwrites targeting
the user that allow F give a mask that has F set after the overwrite merge
and the default-channel step — member overwrites run in a second pass, so
this holds regardless of list order; the returned mask is then obtained from
that mask by the two suppression rules, which may still clear F. -/
theorem member_overwrite_wins_post_merge (g : Guild)
    (channel_id user_id f : Nat) (everyone : Role) (member : Member)
    (channel : GuildChannel)
    (h0 : user_id ≠ g.owner_id)
    (hev : assocGet g.id g.roles = some everyone)
    (hm : assocGet user_id g.members = some member)
    (hna : Permissions.contains (accumulate_roles g member.roles
      everyone.permissions) Permissions.ADMINISTRATOR = false)
    (hch : assocGet channel_id g.channels = some channel)
    (hdeny : ∃ o ∈ channel.permission_overwrites, ∃ r,
      o.kind = PermissionOverwriteType.Role r ∧ (r = g.id ∨ r ∈ member.roles) ∧
      o.deny.testBit f = true)
    (hmem : ∃ o ∈ channel.permission_overwrites,
      o.kind = PermissionOverwriteType.Member user_id)
    (hall : ∀ o ∈ channel.permission_overwrites,
      o.kind = PermissionOverwriteType.Member user_id →
      o.allow.testBit f = true) :
    (default_channel_stage g channel_id (channel_overwrites_stage g channel_id
      member user_id (accumulate_roles g member.roles
        everyone.permissions))).testBit f = true ∧
    permissions_in g channel_id user_id =
      read_suppression_stage (send_suppression_stage (default_channel_stage g
        channel_id (channel_overwrites_stage g channel_id member user_id
          (accumulate_roles g member.roles everyone.permissions)))) := by
  constructor
  · have hmerge : (channel_overwrites_stage g channel_id member user_id
        (accumulate_roles g member.roles everyone.permissions)).testBit f = true := by
      simp only [channel_overwrites_stage, hch]
      exact member_pass_sets_bit user_id f channel.permission_overwrites _ hmem hall
    unfold default_channel_stage
    split
    · simp [Nat.testBit_lor, hmerge]
    · exact hmerge
  · simp [permissions_in, h0, hev, hm, hna]

/-- Witness for C1 (amended): the spec's own scenario — default role grants
READ, role 2 grants READ|SEND, a role overwrite on role 2 denies SEND
(bit 11), a member overwrite allows it; SEND is set after the merge and the
returned mask is the suppression of that merged mask. -/
theorem member_overwrite_wins_post_merge_witness :
    (default_channel_stage
        (⟨1, 100, [(1, ⟨1, Permissions.READ_MESSAGES⟩),
          (2, ⟨2, Permissions.READ_MESSAGES ||| Permissions.SEND_MESSAGES⟩)],
          [(2, ⟨2, [2]⟩)],
          [(3, ⟨3, ChannelType.Text,
            [⟨0, Permissions.SEND_MESSAGES, PermissionOverwriteType.Role 2⟩,
             ⟨Permissions.SEND_MESSAGES, 0, PermissionOverwriteType.Member 2⟩]⟩)]⟩
          : Guild) 3
        (channel_overwrites_stage
          (⟨1, 100, [(1, ⟨1, Permissions.READ_MESSAGES⟩),
            (2, ⟨2, Permissions.READ_MESSAGES ||| Permissions.SEND_MESSAGES⟩)],
            [(2, ⟨2, [2]⟩)],
            [(3, ⟨3, ChannelType.Text,
              [⟨0, Permissions.SEND_MESSAGES, PermissionOverwriteType.Role 2⟩,
               ⟨Permissions.SEND_MESSAGES, 0, PermissionOverwriteType.Member 2⟩]⟩)]⟩
            : Guild) 3 ⟨2, [2]⟩ 2
          (accumulate_roles
            (⟨1, 100, [(1, ⟨1, Permissions.READ_MESSAGES⟩),
              (2, ⟨2, Permissions.READ_MESSAGES ||| Permissions.SEND_MESSAGES⟩)],
              [(2, ⟨2, [2]⟩)],
              [(3, ⟨3, ChannelType.Text,
                [⟨0, Permissions.SEND_MESSAGES, PermissionOverwriteType.Role 2⟩,
                 ⟨Permissions.SEND_MESSAGES, 0, PermissionOverwriteType.Member 2⟩]⟩)]⟩
              : Guild) [2] Permissions.READ_MESSAGES))).testBit 11 = true ∧
    permissions_in
        (⟨1, 100, [(1, ⟨1, Permissions.READ_MESSAGES⟩),
          (2, ⟨2, Permissions.READ_MESSAGES ||| Permissions.SEND_MESSAGES⟩)],
          [(2, ⟨2, [2]⟩)],
          [(3, ⟨3, ChannelType.Text,
            [⟨0, Permissions.SEND_MESSAGES, PermissionOverwriteType.Role 2⟩,
             ⟨Permissions.SEND_MESSAGES, 0, PermissionOverwriteType.Member 2⟩]⟩)]⟩
          : Guild) 3 2 =
      read_suppression_stage (send_suppression_stage (default_channel_stage
        (⟨1, 100, [(1, ⟨1, Permissions.READ_MESSAGES⟩),
          (2, ⟨2, Permissions.READ_MESSAGES ||| Permissions.SEND_MESSAGES⟩)],
          [(2, ⟨2, [2]⟩)],
          [(3, ⟨3, ChannelType.Text,
            [⟨0, Permissions.SEND_MESSAGES, PermissionOverwriteType.Role 2⟩,
             ⟨Permissions.SEND_MESSAGES, 0, PermissionOverwriteType.Member 2⟩]⟩)]⟩
          : Guild) 3
        (channel_overwrites_stage
          (⟨1, 100, [(1, ⟨1, Permissions.READ_MESSAGES⟩),
            (2, ⟨2, Permissions.READ_MESSAGES ||| Permissions.SEND_MESSAGES⟩)],
            [(2, ⟨2, [2]⟩)],
            [(3, ⟨3, ChannelType.Text,
              [⟨0, Permissions.SEND_MESSAGES, PermissionOverwriteType.Role 2⟩,
               ⟨Permissions.SEND_MESSAGES, 0, PermissionOverwriteType.Member 2⟩]⟩)]⟩
            : Guild) 3 ⟨2, [2]⟩ 2
          (accumulate_roles
            (⟨1, 100, [(1, ⟨1, Permissions.READ_MESSAGES⟩),
              (2, ⟨2, Permissions.READ_MESSAGES ||| Permissions.SEND_MESSAGES⟩)],
              [(2, ⟨2, [2]⟩)],
              [(3, ⟨3, ChannelType.Text,
                [⟨0, Permissions.SEND_MESSAGES, PermissionOverwriteType.Role 2⟩,
                 ⟨Permissions.SEND_MESSAGES, 0, PermissionOverwriteType.Member 2⟩]⟩)]⟩
              : Guild) [2] Permissions.READ_MESSAGES)))) := by
  exact member_overwrite_wins_post_merge
    ⟨1, 100, [(1, ⟨1, Permissions.READ_MESSAGES⟩),
      (2, ⟨2, Permissions.READ_MESSAGES ||| Permissions.SEND_MESSAGES⟩)],
      [(2, ⟨2, [2]⟩)],
      [(3, ⟨3, ChannelType.Text,
        [⟨0, Permissions.SEND_MESSAGES, PermissionOverwriteType.Role 2⟩,
         ⟨Permissions.SEND_MESSAGES, 0, PermissionOverwriteType.Member 2⟩]⟩)]⟩
    3 2 11 ⟨1, Permissions.READ_MESSAGES⟩ ⟨2, [2]⟩
    ⟨3, ChannelType.Text,
      [⟨0, Permissions.SEND_MESSAGES, PermissionOverwriteType.Role 2⟩,
       ⟨Permissions.SEND_MESSAGES, 0, PermissionOverwriteType.Member 2⟩]⟩
    (by decide) (by decide) (by decide) (by decide) (by decide)
    ⟨⟨0, Permissions.SEND_MESSAGES, PermissionOverwriteType.Role 2⟩,
      by decide, 2, by decide, by decide, by decide⟩
    ⟨⟨Permissions.SEND_MESSAGES, 0, PermissionOverwriteType.Member 2⟩,
      by decide, by decide⟩
    (by decide)

/-- C9: after the overwrite merge and default-channel step produce the mask
`q`, the returned mask of `permissions_in` satisfies both suppression rules:
without SEND_MESSAGES in `q` it has none of the four send-dependent flags,
and without READ_MESSAGES in `q` it equals `q` intersected with exactly the
fixed account-management allow-list. -/
theorem suppression_rules_post_merge (g : Guild) (channel_id user_id q : Nat)
    (everyone : Role) (member : Member)
    (h0 : user_id ≠ g.owner_id)
    (hev : assocGet g.id g.roles = some everyone)
    (hm : assocGet user_id g.members = some member)
    (hna : Permissions.contains (accumulate_roles g member.roles
      everyone.permissions) Permissions.ADMINISTRATOR = false)
    (hq : q = default_channel_stage g channel_id (channel_overwrites_stage g
      channel_id member user_id (accumulate_roles g member.roles
        everyone.permissions))) :
    (Permissions.contains q Permissions.SEND_MESSAGES = false →
      permissions_in g channel_id user_id &&& SEND_DEPENDENT = 0) ∧
    (Permissions.contains q Permissions.READ_MESSAGES = false →
      permissions_in g channel_id user_id = q &&& READ_FALLBACK) := by
  have hpi : permissions_in g channel_id user_id =
      read_suppression_stage (send_suppression_stage q) := by
    simp [permissions_in, h0, hev, hm, hna, hq]
  constructor
  · intro hsend
    rw [hpi]
    have h1 : send_suppression_stage q = q &&& bitnot SEND_DEPENDENT := by
      simp [send_suppression_stage, hsend]
    rw [h1]
    have hz : bitnot SEND_DEPENDENT &&& SEND_DEPENDENT = 0 := by decide
    unfold read_suppression_stage
    split
    · rw [Nat.land_assoc, hz]
      simp
    · apply land_zero_mono
      rw [Nat.land_assoc, hz]
      simp
  · intro hread
    rw [hpi]
    cases hsend : Permissions.contains q Permissions.SEND_MESSAGES with
    | true =>
      have h1 : send_suppression_stage q = q := by
        simp [send_suppression_stage, hsend]
      rw [h1]
      simp [read_suppression_stage, hread]
    | false =>
      have h1 : send_suppression_stage q = q &&& bitnot SEND_DEPENDENT := by
        simp [send_suppression_stage, hsend]
      rw [h1]
      have hr : Permissions.contains (q &&& bitnot SEND_DEPENDENT)
          Permissions.READ_MESSAGES = false := by
        rw [contains_read_eq] at hread ⊢
        have hb : (bitnot SEND_DEPENDENT).testBit 10 = true := by decide
        simp [Nat.testBit_land, hb, hread]
      simp only [read_suppression_stage, hr, Bool.false_eq_true, if_false]
      have hf : bitnot SEND_DEPENDENT &&& READ_FALLBACK = READ_FALLBACK := by
        decide
      rw [Nat.land_assoc, hf]

/-- Witness for C9: a member with an empty base mask on a missing channel has
merged mask 0, so both suppression conclusions apply concretely. -/
theorem suppression_rules_post_merge_witness :
    (Permissions.contains 0 Permissions.SEND_MESSAGES = false →
      permissions_in (⟨1, 100, [(1, ⟨1, 0⟩)], [(2, ⟨2, []⟩)], []⟩ : Guild) 5 2
        &&& SEND_DEPENDENT = 0) ∧
    (Permissions.contains 0 Permissions.READ_MESSAGES = false →
      permissions_in (⟨1, 100, [(1, ⟨1, 0⟩)], [(2, ⟨2, []⟩)], []⟩ : Guild) 5 2
        = 0 &&& READ_FALLBACK) :=
  suppression_rules_post_merge ⟨1, 100, [(1, ⟨1, 0⟩)], [(2, ⟨2, []⟩)], []⟩ 5 2 0
    ⟨1, 0⟩ ⟨2, []⟩ (by decide) (by decide) (by decide) (by decide) (by decide)

end Model
